import Mathlib

/-! Verification of the span-to-geometry reconciliation pipeline of the PDF
PII-highlighting sample (`docs/samples/python/example_pdf_annotation.ipynb`).

The notebook's original logic is embedded shallowly:
* `combine_rect` — the bounding-box union rule (notebook cell 5);
* `pySlice` — Python's clamping slice `characters[start:end]` (cell 3);
* `sliceCharacters` / `analyzeBlock` — building `analyzed_character_sets`
  from the analyzer results of one block (cell 3);
* `completeBoundingBox` / `buildBoundingBoxes` — reducing each character
  set to one box, raising `IndexError` on `characters[0]` of an empty
  list (cell 5);
* `makeHighlight` — the highlight dictionary with `QuadPoints`, `Rect`,
  color, opacity and title (cell 7);
* `writeAnnots` — `pdf.pages[0].Annots = ...` followed by save (cell 7).

Page-space coordinates are modelled as rationals: the notebook only ever
compares, mins and maxes the float coordinates produced by the extractor,
and those operations are exact on the represented values.
-/

namespace PdfSample

/-- An axis-aligned bounding box `(x0, y0, x1, y1)` in page coordinates,
as produced by the text extractor for each character. -/
structure Rect where
  x0 : ℚ
  y0 : ℚ
  x1 : ℚ
  y1 : ℚ
deriving DecidableEq, Repr

/-- One extracted character (`LTChar`): its text value and bounding box. -/
structure Glyph where
  ch : Char
  bbox : Rect
deriving DecidableEq, Repr

/-- One analyzer finding: a half-open character span `[start, stop)` into
the block text plus an entity-type label.  The Python attribute `end` is
named `stop` here because `end` is reserved in Lean. -/
structure DetectionResult where
  start : Nat
  stop : Nat
  entity_type : String
deriving DecidableEq, Repr

/-- Python's `isspace()`: true iff the string is non-empty and every
character is whitespace. -/
def pyIsspace (s : String) : Bool :=
  !s.data.isEmpty && s.data.all (fun c => c.isWhitespace)

/-- Python's list slice `xs[start:stop]` for non-negative indices: both
bounds are silently clamped to the length of the list. -/
def pySlice (xs : List α) (start stop : Nat) : List α :=
  (xs.drop start).take (stop - start)

/-- One entry of the notebook's `analyzed_character_sets` list: the sliced
characters together with the analyzer result that selected them. -/
structure AnalyzedCharacterSet where
  characters : List Glyph
  result : DetectionResult
deriving DecidableEq, Repr

/-- Cell 3, inner loop: for each analyzer result, slice
`characters[result.start:result.end]` and pair it with the result. -/
def sliceCharacters (characters : List Glyph) (results : List DetectionResult) :
    List AnalyzedCharacterSet :=
  results.map fun r => { characters := pySlice characters r.start r.stop, result := r }

/-- Cell 3 for one text container: the analyzer runs on the block text
unconditionally (the `isspace` test in the notebook only gates console
printing), and every result is sliced against the block's characters. -/
def analyzeBlock (analyze : String → List DetectionResult)
    (text : String) (characters : List Glyph) : List AnalyzedCharacterSet :=
  sliceCharacters characters (analyze text)

/-- The Python exceptions the embedded code can raise. -/
inductive PyError where
  /-- Python `IndexError: list index out of range`. -/
  | indexError
deriving DecidableEq, Repr

instance {ε α : Type} [DecidableEq ε] [DecidableEq α] : DecidableEq (Except ε α) := fun a b =>
  match a, b with
  | .error x, .error y => decidable_of_iff (x = y) (by simp)
  | .error _, .ok _ => isFalse (by simp)
  | .ok _, .error _ => isFalse (by simp)
  | .ok x, .ok y => decidable_of_iff (x = y) (by simp)

/-- Cell 5: `combine_rect`, the union of two bounding boxes. -/
def combine_rect (rectA rectB : Rect) : Rect :=
  { x0 := min rectA.x0 rectB.x0
    y0 := min rectA.y0 rectB.y0
    x1 := max rectA.x1 rectB.x1
    y1 := max rectA.y1 rectB.y1 }

/-- Cell 5, body of the outer loop: start from `characters[0].bbox`
(raising `IndexError` when the set is empty) and fold `combine_rect`
over every character's box, the first one included again. -/
def completeBoundingBox (characters : List Glyph) : Except PyError Rect :=
  match characters with
  | [] => .error .indexError
  | c :: _ => .ok (characters.foldl (fun acc g => combine_rect acc g.bbox) c.bbox)

/-- One entry of the notebook's `analyzed_bounding_boxes` list. -/
structure AnalyzedBoundingBox where
  boundingBox : Rect
  result : DetectionResult
deriving DecidableEq, Repr

/-- Cell 5, outer loop: reduce every character set to a bounding box.
An empty character set raises `IndexError` at `characters[0]`, which
aborts the loop — the remaining sets are not processed and nothing
reaches the annotation cell. -/
def buildBoundingBoxes (sets : List AnalyzedCharacterSet) :
    Except PyError (List AnalyzedBoundingBox) :=
  match sets with
  | [] => .ok []
  | s :: rest => do
      let bb ← completeBoundingBox s.characters
      let tail ← buildBoundingBoxes rest
      pure ({ boundingBox := bb, result := s.result } :: tail)

/-- The highlight markup dictionary built in cell 7 (fields `QuadPoints`,
`Rect`, `C`, `CA`, `T`). -/
structure Highlight where
  quadPoints : List ℚ
  rect : List ℚ
  color : List ℚ
  opacity : ℚ
  title : String
deriving DecidableEq, Repr

/-- Cell 7, loop body: the highlight dictionary for one bounding box. -/
def makeHighlight (boundingBox : Rect) (entityType : String) : Highlight :=
  { quadPoints := [boundingBox.x0, boundingBox.y1,
                   boundingBox.x1, boundingBox.y1,
                   boundingBox.x0, boundingBox.y0,
                   boundingBox.x1, boundingBox.y0]
    rect := [boundingBox.x0, boundingBox.y0, boundingBox.x1, boundingBox.y1]
    color := [1, 0, 0]
    opacity := 1/2
    title := entityType }

/-- A page of the in-memory document: its content stream (opaque here)
and its annotation list `Annots`. -/
structure Page where
  contents : String
  annots : List Highlight
deriving DecidableEq, Repr

/-- The in-memory document: an ordered list of pages. -/
structure PdfDoc where
  pages : List Page
deriving DecidableEq, Repr

/-- Cell 7, final statement: `pdf.pages[0].Annots = pdf.make_indirect(...)`.
The whole accumulated highlight list replaces page 0's annotation list;
every other page is untouched.  Indexing `pages[0]` of an empty document
raises `IndexError`. -/
def writeAnnots (doc : PdfDoc) (highlights : List Highlight) : Except PyError PdfDoc :=
  match doc.pages with
  | [] => .error .indexError
  | p :: rest => .ok { pages := { p with annots := highlights } :: rest }

/-- One text container of the extracted layout: its text and the `LTChar`
glyphs collected from its text lines. -/
structure Block where
  text : String
  characters : List Glyph
deriving DecidableEq, Repr

/-- Cell 3 in full: `analyzed_character_sets` accumulated over every
text container of every page layout of the document. -/
def analyzedCharacterSets (analyze : String → List DetectionResult)
    (layout : List (List Block)) : List AnalyzedCharacterSet :=
  layout.flatMap fun blocks => blocks.flatMap fun b => analyzeBlock analyze b.text b.characters

/-- The notebook end to end: slice the characters for every analyzer
result (cell 3), reduce each set to one bounding box (cell 5), build one
highlight per box and install the list on page 0 (cell 7). -/
def annotatePdf (analyze : String → List DetectionResult)
    (layout : List (List Block)) (doc : PdfDoc) : Except PyError PdfDoc := do
  let boxes ← buildBoundingBoxes (analyzedCharacterSets analyze layout)
  writeAnnots doc (boxes.map fun b => makeHighlight b.boundingBox b.result.entity_type)

/-- Rectangle containment: `outer` contains `inner` componentwise. -/
def rectContains (outer inner : Rect) : Prop :=
  outer.x0 ≤ inner.x0 ∧ outer.y0 ≤ inner.y0 ∧ inner.x1 ≤ outer.x1 ∧ inner.y1 ≤ outer.y1

instance (outer inner : Rect) : Decidable (rectContains outer inner) := by
  unfold rectContains; infer_instance

/-- The corner order required by the highlight-geometry contract, written
from the spec's words: top-left, top-right, bottom-left, bottom-right,
i.e. `(x0,y1), (x1,y1), (x0,y0), (x1,y0)` — higher-Y corners first. -/
def specQuadCorners (r : Rect) : List (ℚ × ℚ) :=
  [(r.x0, r.y1), (r.x1, r.y1), (r.x0, r.y0), (r.x1, r.y0)]

/-! Basic facts about rectangle containment and the union rule. -/

theorem rectContains_refl (a : Rect) : rectContains a a :=
  ⟨le_refl _, le_refl _, le_refl _, le_refl _⟩

theorem rectContains_trans {a b c : Rect} (h1 : rectContains a b) (h2 : rectContains b c) :
    rectContains a c :=
  ⟨le_trans h1.1 h2.1, le_trans h1.2.1 h2.2.1,
   le_trans h2.2.2.1 h1.2.2.1, le_trans h2.2.2.2 h1.2.2.2⟩

theorem combine_rect_contains_left (a b : Rect) : rectContains (combine_rect a b) a :=
  ⟨min_le_left _ _, min_le_left _ _, le_max_left _ _, le_max_left _ _⟩

theorem combine_rect_contains_right (a b : Rect) : rectContains (combine_rect a b) b :=
  ⟨min_le_right _ _, min_le_right _ _, le_max_right _ _, le_max_right _ _⟩

theorem rectContains_combine_rect {R a b : Rect}
    (ha : rectContains R a) (hb : rectContains R b) : rectContains R (combine_rect a b) :=
  ⟨le_min ha.1 hb.1, le_min ha.2.1 hb.2.1,
   max_le ha.2.2.1 hb.2.2.1, max_le ha.2.2.2 hb.2.2.2⟩

/-! Facts about the left fold of `combine_rect` used by `completeBoundingBox`. -/

theorem foldl_combine_contains_init (l : List Glyph) (init : Rect) :
    rectContains (l.foldl (fun acc g => combine_rect acc g.bbox) init) init := by
  induction l generalizing init with
  | nil => exact rectContains_refl _
  | cons a t ih =>
    exact rectContains_trans (ih (combine_rect init a.bbox)) (combine_rect_contains_left _ _)

theorem foldl_combine_contains_mem (l : List Glyph) (init : Rect) {g : Glyph} (hg : g ∈ l) :
    rectContains (l.foldl (fun acc g => combine_rect acc g.bbox) init) g.bbox := by
  induction l generalizing init with
  | nil => cases hg
  | cons a t ih =>
    cases hg with
    | head =>
      exact rectContains_trans (foldl_combine_contains_init t _)
        (combine_rect_contains_right _ _)
    | tail _ h => exact ih _ h

theorem foldl_combine_least (l : List Glyph) (init : Rect) {R : Rect}
    (hinit : rectContains R init) (hall : ∀ g ∈ l, rectContains R g.bbox) :
    rectContains R (l.foldl (fun acc g => combine_rect acc g.bbox) init) := by
  induction l generalizing init with
  | nil => exact hinit
  | cons a t ih =>
    exact ih _ (rectContains_combine_rect hinit (hall a (List.mem_cons_self a t)))
      (fun g hg => hall g (List.mem_cons_of_mem _ hg))

theorem completeBoundingBox_ok_of_ne_nil (l : List Glyph) (h : l ≠ []) :
    ∃ rect, completeBoundingBox l = .ok rect := by
  cases l with
  | nil => exact absurd rfl h
  | cons c cs => exact ⟨_, rfl⟩

theorem pySlice_single {α : Type} (l : List α) (i : Nat) (h : i < l.length) :
    pySlice l i (i + 1) = [l.get ⟨i, h⟩] := by
  induction l generalizing i with
  | nil => exact absurd h (by simp)
  | cons a t ih =>
    cases i with
    | zero => simp [pySlice]
    | succ n =>
      have h' : n < t.length := by simpa using h
      have ht := ih n h'
      simp only [pySlice] at ht ⊢
      simpa using ht

/-! The claims. -/

/-- C1, counterexample: with a single glyph and a result spanning `[0, 2)`
(so `result.end = 2 > 1 = len(glyphs)`), the bounding-box pipeline does not
fail at all: the slice `characters[0:2]` silently clamps to the one
available glyph and a bounding box is produced, contradicting the claim
that every out-of-range span fails with an index error. -/
theorem C1_counterexample :
    ([⟨'J', ⟨0, 0, 10, 10⟩⟩] : List Glyph).length < (⟨0, 2, "PERSON"⟩ : DetectionResult).stop ∧
    buildBoundingBoxes (sliceCharacters [⟨'J', ⟨0, 0, 10, 10⟩⟩] [⟨0, 2, "PERSON"⟩])
      = .ok [⟨⟨0, 0, 10, 10⟩, ⟨0, 2, "PERSON"⟩⟩] :=
  ⟨by decide, by decide⟩

/-- C1, amended: when `result.end > len(glyphs)` the selected span is
silently clamped to the available glyphs — slicing behaves exactly as if
`end` were `len(glyphs)`.  An `IndexError` occurs precisely when the
clamped selection is empty, i.e. when `result.start ≥ len(glyphs)`;
whenever `result.start < len(glyphs)` a bounding box is produced from the
clamped glyphs. -/
theorem C1_out_of_range_clamps (characters : List Glyph) (r : DetectionResult)
    (h : characters.length < r.stop) :
    pySlice characters r.start r.stop = pySlice characters r.start characters.length ∧
    (characters.length ≤ r.start →
      completeBoundingBox (pySlice characters r.start r.stop) = .error .indexError) ∧
    (r.start < characters.length →
      ∃ rect, completeBoundingBox (pySlice characters r.start r.stop) = .ok rect) := by
  refine ⟨?_, ?_, ?_⟩
  · unfold pySlice
    rw [List.take_of_length_le, List.take_of_length_le]
    · simp only [List.length_drop]; omega
    · simp only [List.length_drop]; omega
  · intro hs
    have hnil : pySlice characters r.start r.stop = [] := by
      unfold pySlice
      simp [List.drop_eq_nil_of_le hs]
    rw [hnil]; rfl
  · intro hs
    apply completeBoundingBox_ok_of_ne_nil
    have hlen : (pySlice characters r.start r.stop).length > 0 := by
      unfold pySlice
      simp only [List.length_take, List.length_drop]
      omega
    exact List.ne_nil_of_length_pos hlen

/-- C1, witness for the amended theorem at one glyph and span `[1, 3)`. -/
theorem C1_out_of_range_clamps_witness :
    ([⟨'J', ⟨0, 0, 10, 10⟩⟩] : List Glyph).length < (⟨1, 3, "PERSON"⟩ : DetectionResult).stop ∧
    (pySlice ([⟨'J', ⟨0, 0, 10, 10⟩⟩] : List Glyph) 1 3
        = pySlice ([⟨'J', ⟨0, 0, 10, 10⟩⟩] : List Glyph) 1 1 ∧
     (([⟨'J', ⟨0, 0, 10, 10⟩⟩] : List Glyph).length ≤ 1 →
       completeBoundingBox (pySlice [⟨'J', ⟨0, 0, 10, 10⟩⟩] 1 3) = .error .indexError) ∧
     (1 < ([⟨'J', ⟨0, 0, 10, 10⟩⟩] : List Glyph).length →
       ∃ rect, completeBoundingBox (pySlice [⟨'J', ⟨0, 0, 10, 10⟩⟩] 1 3) = .ok rect)) :=
  ⟨by decide, C1_out_of_range_clamps ([⟨'J', ⟨0, 0, 10, 10⟩⟩] : List Glyph)
    (⟨1, 3, "PERSON"⟩ : DetectionResult) (by decide)⟩

/-- C2: `combine_rect` is commutative and associative, so reducing any
finite collection of rectangles with the union rule yields the same final
rectangle regardless of the order and grouping of merges. -/
theorem C2_combine_rect_comm_assoc (a b c : Rect) :
    combine_rect a b = combine_rect b a ∧
    combine_rect (combine_rect a b) c = combine_rect a (combine_rect b c) := by
  constructor <;>
    simp [combine_rect, min_comm, min_assoc, min_left_comm, max_comm, max_assoc, max_left_comm]

/-- C3, counterexample: a batch holding one empty-span character set
followed by one valid set produces an `IndexError` for the whole batch —
the valid second result is never turned into a bounding box, so the
failing result is not dropped and processing does not continue. -/
theorem C3_counterexample :
    buildBoundingBoxes [⟨[], ⟨1, 1, "PERSON"⟩⟩, ⟨[⟨'J', ⟨0, 0, 10, 10⟩⟩], ⟨0, 1, "PERSON"⟩⟩]
      = .error .indexError := by decide

/-- C3, amended: a result whose selected glyph sub-sequence is empty makes
the bounding-box step raise `IndexError` (at `characters[0]`) and produces
no output; the error aborts processing of all remaining results in the
batch instead of being skipped. -/
theorem C3_empty_span_aborts (r : DetectionResult) (rest : List AnalyzedCharacterSet) :
    buildBoundingBoxes ({ characters := [], result := r } :: rest) = .error .indexError := rfl

/-- C4, counterexample: for a whitespace-only block text, the recognizer
is invoked and its results are processed like any other block's — a
recognizer returning one result over the single space glyph yields one
processed character set and one bounding box, not zero. -/
theorem C4_counterexample :
    pyIsspace " " = true ∧
    analyzeBlock (fun _ => [⟨0, 1, "PERSON"⟩]) " " [⟨' ', ⟨0, 0, 10, 10⟩⟩]
      = [⟨[⟨' ', ⟨0, 0, 10, 10⟩⟩], ⟨0, 1, "PERSON"⟩⟩] ∧
    buildBoundingBoxes (analyzeBlock (fun _ => [⟨0, 1, "PERSON"⟩]) " " [⟨' ', ⟨0, 0, 10, 10⟩⟩])
      = .ok [⟨⟨0, 0, 10, 10⟩, ⟨0, 1, "PERSON"⟩⟩] :=
  ⟨by decide, by decide, by decide⟩

/-- C4, amended: the whitespace test in the notebook only suppresses
console printing; the recognizer runs on whitespace-only blocks and its
results are processed.  A whitespace-only block yields zero bounding
boxes exactly when the recognizer returns zero results for it. -/
theorem C4_whitespace_block_annots (analyze : String → List DetectionResult)
    (text : String) (characters : List Glyph)
    (_hws : pyIsspace text = true) (hempty : analyze text = []) :
    analyzeBlock analyze text characters = [] ∧
    buildBoundingBoxes (analyzeBlock analyze text characters) = .ok [] := by
  simp [analyzeBlock, sliceCharacters, hempty, buildBoundingBoxes]

/-- C4, witness for the amended theorem: a space-only block with a
recognizer returning no results yields no character sets and no boxes. -/
theorem C4_whitespace_block_annots_witness :
    pyIsspace " " = true ∧
    (fun _ => ([] : List DetectionResult)) " " = [] ∧
    (analyzeBlock (fun _ => []) " " [] = [] ∧
     buildBoundingBoxes (analyzeBlock (fun _ => []) " " []) = .ok []) :=
  ⟨by decide, rfl, C4_whitespace_block_annots (fun _ => []) " " [] (by decide) rfl⟩

/-- C5, counterexample: in a two-page document whose only glyphs (and only
detection) are on page 1, the produced highlight is installed on page 0's
annotation list and page 1 is left untouched — the annotation is not
attached to the page whose glyphs produced it. -/
theorem C5_counterexample :
    annotatePdf (fun _ => [⟨0, 1, "PERSON"⟩]) [[], [⟨"J", [⟨'J', ⟨0, 0, 10, 10⟩⟩]⟩]]
      ⟨[⟨"p0", []⟩, ⟨"p1", []⟩]⟩
      = .ok ⟨[⟨"p0", [makeHighlight ⟨0, 0, 10, 10⟩ "PERSON"]⟩, ⟨"p1", []⟩]⟩ := rfl

/-- C5, amended: the writer installs the accumulated highlight list of the
whole document on page 0 only, replacing that page's annotation list;
every other page, and everything on page 0 except its annotation list, is
left exactly as in the input. -/
theorem C5_writer_page_zero (p : Page) (rest : List Page) (highlights : List Highlight) :
    writeAnnots ⟨p :: rest⟩ highlights
      = .ok ⟨{ contents := p.contents, annots := highlights } :: rest⟩ := rfl

/-- C6: the spec's two concrete scenarios.  Four aligned glyph boxes over
span `[0, 4)` reconcile to `(0,0,40,10)`; a base glyph and a superscript
glyph over span `[0, 2)` reconcile to `(0,0,15,12)`. -/
theorem C6_scenarios :
    completeBoundingBox (pySlice
        [⟨'J', ⟨0, 0, 10, 10⟩⟩, ⟨'a', ⟨10, 0, 20, 10⟩⟩,
         ⟨'n', ⟨20, 0, 30, 10⟩⟩, ⟨'e', ⟨30, 0, 40, 10⟩⟩] 0 4) = .ok ⟨0, 0, 40, 10⟩ ∧
    completeBoundingBox (pySlice
        [⟨'A', ⟨0, 0, 10, 10⟩⟩, ⟨'B', ⟨10, 5, 15, 12⟩⟩] 0 2) = .ok ⟨0, 0, 15, 12⟩ :=
  ⟨by decide, by decide⟩

/-- C7: whenever the bounding-box reduction succeeds, the reconciled
rectangle contains every selected glyph's rectangle componentwise. -/
theorem C7_reconciled_contains_glyphs (characters : List Glyph) (rect : Rect)
    (h : completeBoundingBox characters = .ok rect) :
    ∀ g ∈ characters, rectContains rect g.bbox := by
  cases characters with
  | nil => simp [completeBoundingBox] at h
  | cons c cs =>
    simp only [completeBoundingBox, Except.ok.injEq] at h
    subst h
    intro g hg
    exact foldl_combine_contains_mem _ _ hg

/-- C7, witness at two glyphs: the merged rectangle contains the second
glyph's rectangle. -/
theorem C7_reconciled_contains_glyphs_witness :
    completeBoundingBox [⟨'J', ⟨0, 0, 10, 10⟩⟩, ⟨'a', ⟨10, 0, 20, 10⟩⟩] = .ok ⟨0, 0, 20, 10⟩ ∧
    rectContains ⟨0, 0, 20, 10⟩ (⟨10, 0, 20, 10⟩ : Rect) :=
  ⟨by decide,
   C7_reconciled_contains_glyphs ([⟨'J', ⟨0, 0, 10, 10⟩⟩, ⟨'a', ⟨10, 0, 20, 10⟩⟩] : List Glyph)
     ⟨0, 0, 20, 10⟩ (by decide) ⟨'a', ⟨10, 0, 20, 10⟩⟩ (by decide)⟩

/-- C8: a span selecting exactly one glyph reconciles to exactly that
glyph's rectangle, unchanged. -/
theorem C8_single_glyph_identity (characters : List Glyph) (r : DetectionResult)
    (h : r.start < characters.length) (hstop : r.stop = r.start + 1) :
    completeBoundingBox (pySlice characters r.start r.stop)
      = .ok (characters.get ⟨r.start, h⟩).bbox := by
  rw [hstop, pySlice_single characters r.start h]
  simp [completeBoundingBox, combine_rect]

/-- C8, witness at span `[0, 1)` over two glyphs. -/
theorem C8_single_glyph_identity_witness :
    (⟨0, 1, "PERSON"⟩ : DetectionResult).start <
      ([⟨'J', ⟨0, 0, 10, 10⟩⟩, ⟨'a', ⟨10, 0, 20, 10⟩⟩] : List Glyph).length ∧
    completeBoundingBox (pySlice [⟨'J', ⟨0, 0, 10, 10⟩⟩, ⟨'a', ⟨10, 0, 20, 10⟩⟩] 0 1)
      = .ok (([⟨'J', ⟨0, 0, 10, 10⟩⟩, ⟨'a', ⟨10, 0, 20, 10⟩⟩] : List Glyph).get
          ⟨0, by decide⟩).bbox :=
  ⟨by decide, C8_single_glyph_identity _ ⟨0, 1, "PERSON"⟩ (by decide) rfl⟩

/-- C9: the highlight geometry emits the quadrilateral corner points in
exactly the order `(x0,y1), (x1,y1), (x0,y0), (x1,y0)` — the higher-Y
corners first — flattened into the `QuadPoints` array. -/
theorem C9_quad_point_order (r : Rect) (label : String) :
    (makeHighlight r label).quadPoints = (specQuadCorners r).flatMap (fun p => [p.1, p.2]) := rfl

/-- C10: whenever the bounding-box reduction succeeds, the reconciled
rectangle is the least rectangle containing all selected glyph
rectangles: it contains each of them, and any rectangle containing every
selected glyph's rectangle also contains it. -/
theorem C10_least_rectangle (characters : List Glyph) (rect : Rect)
    (h : completeBoundingBox characters = .ok rect) :
    (∀ g ∈ characters, rectContains rect g.bbox) ∧
    ∀ R : Rect, (∀ g ∈ characters, rectContains R g.bbox) → rectContains R rect := by
  cases characters with
  | nil => simp [completeBoundingBox] at h
  | cons c cs =>
    simp only [completeBoundingBox, Except.ok.injEq] at h
    subst h
    refine ⟨fun g hg => foldl_combine_contains_mem _ _ hg, fun R hR => ?_⟩
    exact foldl_combine_least _ _ (hR c (List.mem_cons_self c cs)) hR

/-- C10, witness: a larger rectangle containing both glyph boxes contains
the reconciled rectangle. -/
theorem C10_least_rectangle_witness :
    completeBoundingBox [⟨'A', ⟨0, 0, 10, 10⟩⟩, ⟨'B', ⟨10, 5, 15, 12⟩⟩] = .ok ⟨0, 0, 15, 12⟩ ∧
    rectContains ⟨0, 0, 100, 100⟩ ⟨0, 0, 15, 12⟩ :=
  ⟨by decide,
   (C10_least_rectangle ([⟨'A', ⟨0, 0, 10, 10⟩⟩, ⟨'B', ⟨10, 5, 15, 12⟩⟩] : List Glyph)
     ⟨0, 0, 15, 12⟩ (by decide)).2 ⟨0, 0, 100, 100⟩ (by decide)⟩

end PdfSample
